import Mathlib

/-!
Verification development for the `keep-me-alive` health poller
(`src/main.py`).  The program issues one HTTP GET per configured target
with a 30-second timeout, classifies the outcome into a result dict,
prints human-readable report lines, and returns an aggregate exit code.

The embedding below is a shallow model of `main.py`:

* `NetOutcome` models what `requests.get(url, timeout=30)` does on one
  call: either an HTTP response is received (with status code, elapsed
  seconds, and a body that either parses as JSON or not), or the call
  raises `Timeout`, `ConnectionError`, or some other exception.
* `ping_server_body` models the *body* of the `try:` block of
  `ping_server` (lines 18-56): it returns `Except` so that the raising
  control flow of Python is explicit; the error value carries the lines
  already printed before the exception was raised.
* `ping_server` wraps the body with the three `except` handlers
  (lines 58-89), exactly as the source does.
* `ping_all_loop` / `ping_all_servers` model `ping_all_servers`
  (lines 91-134), generalized over the target list (the source hardcodes
  a two-element list, `servers`, reproduced below) and over a network
  oracle assigning each target the outcome of its single GET.

Printed output is modelled as the list of printed lines, in order.
Numeric values (JSON numbers, elapsed seconds) are modelled as exact
decimals `Dec` (mantissa times a power of ten); `f"{x:.1f}"`-style
formatting is modelled by `formatFixed` (round-half-even, as CPython
formats floats).
-/

/-- An exact decimal number `mantissa / 10 ^ exp`, modelling the decimal
numerals that appear in JSON bodies and the float values the program
formats (e.g. `12.34` is `⟨1234, 2⟩`). -/
structure Dec where
  mantissa : Int
  exp : Nat
deriving DecidableEq, Repr

/-- JSON values, as produced by `response.json()` in Python
(`json.loads`): `null`/`bool`/number/string/array/object.  Numbers are
modelled as exact decimals.  Object keys are kept as an association
list; keys coming out of a JSON parse are unique, and `lookupKey` below
models `dict` lookup. -/
inductive Json where
  | null : Json
  | bool (b : Bool) : Json
  | num (x : Dec) : Json
  | str (s : String) : Json
  | arr (elems : List Json) : Json
  | obj (fields : List (String × Json)) : Json

/-- Python `data[k]` / `k in data` on a parsed JSON object (Python `dict`
lookup; keys are unique after a JSON parse, so the traversal order is
immaterial). -/
def lookupKey (kvs : List (String × Json)) (k : String) : Option Json :=
  match kvs with
  | [] => none
  | (k2, v) :: rest => if k2 == k then some v else lookupKey rest k

/-- The value stored under `"response_data"` in the result dict
(main.py lines 34-39): the parsed JSON body when `response.json()`
succeeds, otherwise the raw text body `response.text`. -/
inductive ResponseData where
  | json (j : Json) : ResponseData
  | text (t : String) : ResponseData

/-- The dict returned by `ping_server`.  The source returns one of four
dict shapes (lines 25-32, 61-67, 72-78, 83-89); fields absent from a
given shape are `none`.  The `error` field holds the string the source
stores: `"timeout"`, `"connection_error"`, or `str(e)` for any other
exception `e`. -/
structure ProbeResult where
  server : String
  url : String
  status_code : Option Nat := none
  response_time : Option Dec := none
  timestamp : String
  success : Bool
  response_data : Option ResponseData := none
  error : Option String := none

/-- How the body of an HTTP response behaves under `response.json()`
(main.py lines 35-39): it either parses to a JSON value or raises
`json.JSONDecodeError`, in which case the source falls back to the raw
`response.text`. -/
inductive BodyParse where
  | jsonBody (j : Json) : BodyParse
  | textBody (t : String) : BodyParse

/-- Outcome of the single `requests.get(url, timeout=30)` call
(main.py line 22): a response was received (any status code), or the
call raised `requests.exceptions.Timeout`,
`requests.exceptions.ConnectionError`, or some other exception whose
`str(e)` is `msg`.  `elapsed` models
`response.elapsed.total_seconds()`. -/
inductive NetOutcome where
  | response (status_code : Nat) (elapsed : Dec) (body : BodyParse) : NetOutcome
  | timeout : NetOutcome
  | connectionError : NetOutcome
  | otherError (msg : String) : NetOutcome

/-- Exceptions that escape the `try:` body of `ping_server` and are
caught by its `except` clauses (main.py lines 58-89). -/
inductive PyExc where
  | timeout : PyExc
  | connectionError : PyExc
  | other (msg : String) : PyExc

/-- The string the source stores in the `"error"` field for each caught
exception (main.py lines 64, 75, 86). -/
def excErrorString : PyExc → String
  | .timeout => "timeout"
  | .connectionError => "connection_error"
  | .other msg => msg

/-- Quotient `a / b` rounded to the nearest integer with ties to even, for
`b > 0` — the rounding CPython `format(x, ".1f")` applies.  `Int.ediv`
gives the floor since `b` is positive; `r` is the nonnegative
remainder. -/
def divHalfEven (a b : Int) : Int :=
  let q := Int.ediv a b
  let r := a - q * b
  if 2 * r < b then q
  else if b < 2 * r then q + 1
  else if q % 2 = 0 then q else q + 1

/-- Left-pad a digit string with zeros up to width `d`. -/
def padLeftZeros (d : Nat) (s : String) : String :=
  if s.length ≥ d then s
  else String.mk (List.replicate (d - s.length) '0') ++ s

/-- Python `f"{x:.{d}f}"` on a (decimal-modelled) float: fixed-point
with `d` digits after the point, round-half-even. -/
def formatFixed (d : Nat) (x : Dec) : String :=
  let p : Nat := 10 ^ d
  let n := divHalfEven (x.mantissa * (p : Int)) ((10 ^ x.exp : Nat) : Int)
  let m := n.natAbs
  let sign := if n < 0 then "-" else ""
  if d = 0 then sign ++ toString m
  else sign ++ toString (m / p) ++ "." ++ padLeftZeros d (toString (m % p))

/-- Python `str(v)` for a JSON value, as used when the source
interpolates `data['message']` into an f-string (main.py line 50).
The claims only exercise string values; the rendering of composite
values abbreviates Python's repr. -/
def pyStr : Json → String
  | .null => "None"
  | .bool b => if b then "True" else "False"
  | .num x => formatFixed x.exp x
  | .str s => s
  | .arr _ => "[...]"
  | .obj _ => "\x7b...\x7d"

/-- Python `f"{v:.1f}"` applied to a JSON value (main.py line 52):
defined for numbers (and bools, which are ints in Python); any other
value makes the format call raise, modelled by `none`. -/
def pyFormat1 : Json → Option String
  | .num x => some (formatFixed 1 x)
  | .bool b => some (if b then "1.0" else "0.0")
  | _ => none

/-- The `str(e)` of the exception CPython raises when `f"{v:.1f}"` is
applied to a non-numeric value `v` (a `ValueError` for `str`,
a `TypeError` for the rest). -/
def pyFormat1ErrMsg : Json → String
  | .str _ => "Unknown format code \x27f\x27 for object of type \x27str\x27"
  | .null => "unsupported format string passed to NoneType.__format__"
  | .arr _ => "unsupported format string passed to list.__format__"
  | .obj _ => "unsupported format string passed to dict.__format__"
  | _ => ""

/-- The body of the `try:` block of `ping_server` (main.py lines 18-56).
`ts` models the `datetime.datetime.now()` timestamps (the claims never
inspect them).  An `Except.error` value is an exception escaping the
block, paired with the lines printed before it was raised; an
`Except.ok` value is the returned `response_info` dict paired with all
printed lines. -/
def ping_server_body (url server_name ts : String) (net : NetOutcome) :
    Except (PyExc × List String) (ProbeResult × List String) :=
  let startLine := ts ++ ": Pinging " ++ server_name ++ " at " ++ url
  match net with
  | .timeout => .error (.timeout, [startLine])
  | .connectionError => .error (.connectionError, [startLine])
  | .otherError msg => .error (.other msg, [startLine])
  | .response status elapsed bp =>
    let response_data : ResponseData :=
      match bp with
      | .jsonBody j => .json j
      | .textBody t => .text t
    let response_info : ProbeResult :=
      { server := server_name, url := url, status_code := some status,
        response_time := some elapsed, timestamp := ts,
        success := status == 200, response_data := some response_data }
    if status == 200 then
      let lines :=
        [startLine,
         "✅ " ++ server_name ++ " is alive (Status: " ++ toString status ++ ")",
         "   Response time: " ++ formatFixed 3 elapsed ++ "s"]
      match response_data with
      | .json (.obj kvs) =>
        let lines2 := lines ++
          (match lookupKey kvs "message" with
           | some v => ["   Message: " ++ pyStr v]
           | none => [])
        match lookupKey kvs "uptime" with
        | some v =>
          match pyFormat1 v with
          | some s => .ok (response_info, lines2 ++ ["   Uptime: " ++ s ++ "s"])
          | none => .error (.other (pyFormat1ErrMsg v), lines2)
        | none => .ok (response_info, lines2)
      | _ => .ok (response_info, lines)
    else
      .ok (response_info,
        [startLine,
         "⚠️ " ++ server_name ++ " returned unexpected status code: " ++ toString status])

/-- Function `ping_server(url, server_name)` (main.py lines 7-89): the `try:`
body above, wrapped in the three `except` handlers.  Each handler prints
one failure line and returns an error-shaped dict by value. -/
def ping_server (url server_name ts : String) (net : NetOutcome) :
    ProbeResult × List String :=
  match ping_server_body url server_name ts net with
  | .ok r => r
  | .error (.timeout, out) =>
    ({ server := server_name, url := url, timestamp := ts,
       success := false, error := some "timeout" },
     out ++ ["❌ " ++ server_name ++ " request timed out after 30 seconds"])
  | .error (.connectionError, out) =>
    ({ server := server_name, url := url, timestamp := ts,
       success := false, error := some "connection_error" },
     out ++ ["❌ " ++ server_name ++ " connection failed - server may be down"])
  | .error (.other msg, out) =>
    ({ server := server_name, url := url, timestamp := ts,
       success := false, error := some msg },
     out ++ ["❌ " ++ server_name ++ " error: " ++ msg])

/-- A configured target: a (name, url) pair, one entry of the `servers`
list in `ping_all_servers` (main.py lines 96-105). -/
structure Target where
  name : String
  url : String

/-- The static two-element server list hardcoded in `ping_all_servers`
(main.py lines 96-105). -/
def servers : List Target :=
  [{ name := "Node.js API Server", url := "https://make-it-rag.onrender.com/ping" },
   { name := "Python AI Server", url := "https://make-it-rag-1.onrender.com/ping" }]

/-- The separator `"=" * 60` (main.py lines 107, 109, 120, 122). -/
def banner : String :=
  String.mk (List.replicate 60 '=')

/-- The per-target loop of `ping_all_servers` (main.py lines 111-117):
starting from empty `results` and no output, probe each target in list
order, append its result to `results`, emit its printed lines followed
by the blank separator line `print()` emits.  `net` is the network
oracle giving the outcome of the single GET against each target; `ts`
models the timestamps. -/
def ping_all_loop (targets : List Target) (net : Target → NetOutcome) (ts : String) :
    List ProbeResult × List String :=
  targets.foldl
    (fun acc server =>
      let r := ping_server server.url server.name ts (net server)
      (acc.1 ++ [r.1], acc.2 ++ r.2 ++ [""]))
    ([], [])

/-- Function `ping_all_servers` (main.py lines 91-134), generalized over the
target list (the source passes the fixed `servers` list) and the network
oracle.  Returns the exit code paired with all printed lines: the
header, the per-target loop output, the summary block with
`successful_pings/total_servers`, and one of the two fixed closing
messages; the exit code is `0` when `successful_pings == total_servers`
and `1` otherwise. -/
def ping_all_servers (targets : List Target) (net : Target → NetOutcome) (ts : String) :
    Nat × List String :=
  let header := [banner, "SERVER PING MONITORING", banner]
  let lr := ping_all_loop targets net ts
  let successful_pings := lr.1.countP (fun r => r.success)
  let total_servers := lr.1.length
  let pre := header ++ lr.2 ++
    [banner, "SUMMARY", banner,
     "Servers responding: " ++ toString successful_pings ++ "/" ++ toString total_servers]
  if successful_pings = total_servers then
    (0, pre ++ ["🎉 All servers are healthy!"])
  else
    (1, pre ++ ["⚠️ Some servers are not responding"])

/-- Spec-side description of the loop's result list: one `ping_server`
result per target, in list order (spec §4.1: "Sequentially probes every
target in list order").  Compared against `ping_all_loop` in the
theorems below. -/
def runResults (targets : List Target) (net : Target → NetOutcome) (ts : String) :
    List ProbeResult :=
  targets.map (fun t => (ping_server t.url t.name ts (net t)).1)

/-- Spec-side characterization: the GET received an HTTP 200 response
(spec §3: "`success` is true iff the probe returned HTTP 200 within the
timeout window"). -/
def isOk200 : NetOutcome → Bool
  | .response status _ _ => status == 200
  | _ => false

/-- The probe received a 200 response whose JSON body is an object
mapping `"uptime"` to a value that the `f"{...:.1f}"` format call
rejects, making the success-path printing raise (main.py line 52). -/
def uptimeFormatFails : NetOutcome → Bool
  | .response status _ (.jsonBody (.obj kvs)) =>
    status == 200 &&
      (match lookupKey kvs "uptime" with
       | some v => (pyFormat1 v).isNone
       | none => false)
  | _ => false

/-- C2: `ping_server` never propagates an exception: whenever the body
of its `try:` block raises (`ping_server_body` returns `Except.error`),
`ping_server` returns, by value, a Failure-shaped `ProbeResult` whose
`error` field holds the classification string for the raised exception,
with `success = false` and no `status_code` field. -/
theorem pingServer_catches_all_exceptions (url name ts : String) (net : NetOutcome)
    (e : PyExc) (out : List String)
    (h : ping_server_body url name ts net = .error (e, out)) :
    (ping_server url name ts net).1.error = some (excErrorString e) ∧
    (ping_server url name ts net).1.success = false ∧
    (ping_server url name ts net).1.status_code = none := by
  cases e <;> simp [ping_server, h, excErrorString]

/-- Witness for C2: a concrete timed-out probe is converted into a
Failure result with `error = "timeout"`. -/
theorem pingServer_catches_all_exceptions_witness :
    (ping_server "u" "s" "t" NetOutcome.timeout).1.error = some (excErrorString PyExc.timeout) ∧
    (ping_server "u" "s" "t" NetOutcome.timeout).1.success = false ∧
    (ping_server "u" "s" "t" NetOutcome.timeout).1.status_code = none :=
  pingServer_catches_all_exceptions "u" "s" "t" NetOutcome.timeout PyExc.timeout
    ["t: Pinging s at u"] rfl

/-- C4: the probe classifies every non-completion failure into exactly
one of the three error kinds, each with `success = false`: a request
timeout yields `error = "timeout"`, a connection failure yields
`error = "connection_error"`, and any other exception raised by the GET
yields `error` carrying the exception's message text. -/
theorem pingServer_error_classification (url name ts msg : String) :
    ((ping_server url name ts NetOutcome.timeout).1.error = some "timeout" ∧
     (ping_server url name ts NetOutcome.timeout).1.success = false) ∧
    ((ping_server url name ts NetOutcome.connectionError).1.error = some "connection_error" ∧
     (ping_server url name ts NetOutcome.connectionError).1.success = false) ∧
    ((ping_server url name ts (NetOutcome.otherError msg)).1.error = some msg ∧
     (ping_server url name ts (NetOutcome.otherError msg)).1.success = false) := by
  simp [ping_server, ping_server_body]

/-- C5: an HTTP response with a non-200 status code yields a completed
Success-shaped result: `status_code` is present, the `error` field is
absent (a non-200 response is never classified as a failure kind), and
`success = false`. -/
theorem pingServer_non200_is_completed (url name ts : String) (status : Nat)
    (elapsed : Dec) (bp : BodyParse) (h : status ≠ 200) :
    (ping_server url name ts (.response status elapsed bp)).1.error = none ∧
    (ping_server url name ts (.response status elapsed bp)).1.status_code = some status ∧
    (ping_server url name ts (.response status elapsed bp)).1.success = false := by
  have hb : (status == 200) = false := by simpa using h
  simp [ping_server, ping_server_body, hb]

/-- Witness for C5: a concrete 404 response is a completed result with
no error field and `success = false`. -/
theorem pingServer_non200_is_completed_witness :
    (ping_server "u" "s" "t" (.response 404 ⟨0, 0⟩ (.textBody "nope"))).1.error = none ∧
    (ping_server "u" "s" "t" (.response 404 ⟨0, 0⟩ (.textBody "nope"))).1.status_code = some 404 ∧
    (ping_server "u" "s" "t" (.response 404 ⟨0, 0⟩ (.textBody "nope"))).1.success = false :=
  pingServer_non200_is_completed "u" "s" "t" 404 ⟨0, 0⟩ (.textBody "nope") (by decide)

/-- C6: when the response body does not parse as JSON, the probe falls
back to the raw text body: `response_data` holds the raw text and the
result is still a completed (non-error) one, whatever the status
code. -/
theorem pingServer_text_fallback (url name ts : String) (status : Nat)
    (elapsed : Dec) (raw : String) :
    (ping_server url name ts (.response status elapsed (.textBody raw))).1.response_data =
      some (.text raw) ∧
    (ping_server url name ts (.response status elapsed (.textBody raw))).1.error = none ∧
    (ping_server url name ts (.response status elapsed (.textBody raw))).1.status_code =
      some status := by
  cases hb : status == 200 <;> simp [ping_server, ping_server_body, hb]

/-- C8: a 200 response whose body is the JSON object
`{"message": "ok", "uptime": 12.34}` (the decimal `12.34` is `⟨1234, 2⟩`)
yields `success = true`, `response_data` equal to that object, and
printed output containing the lines `"   Message: ok"` and
`"   Uptime: 12.3s"` (uptime formatted with one decimal). -/
theorem pingServer_200_json_message_uptime (url name ts : String) (elapsed : Dec) :
    (ping_server url name ts (.response 200 elapsed (.jsonBody (Json.obj
        [("message", Json.str "ok"), ("uptime", Json.num ⟨1234, 2⟩)])))).1.success = true ∧
    (ping_server url name ts (.response 200 elapsed (.jsonBody (Json.obj
        [("message", Json.str "ok"), ("uptime", Json.num ⟨1234, 2⟩)])))).1.response_data =
      some (.json (Json.obj [("message", Json.str "ok"), ("uptime", Json.num ⟨1234, 2⟩)])) ∧
    "   Message: ok" ∈ (ping_server url name ts (.response 200 elapsed (.jsonBody (Json.obj
        [("message", Json.str "ok"), ("uptime", Json.num ⟨1234, 2⟩)])))).2 ∧
    "   Uptime: 12.3s" ∈ (ping_server url name ts (.response 200 elapsed (.jsonBody (Json.obj
        [("message", Json.str "ok"), ("uptime", Json.num ⟨1234, 2⟩)])))).2 := by
  have hfmt : formatFixed 1 ⟨1234, 2⟩ = "12.3" := rfl
  have hstr : pyStr (Json.str "ok") = "ok" := rfl
  simp [ping_server, ping_server_body, lookupKey, pyFormat1, hfmt, hstr]

/-- C9: every `ProbeResult` returned by the probe carries exactly one of
the `status_code` field (completed exchange) or the `error` field
(classified failure), never both; and `success` is true exactly when
`status_code` is present and equals 200. -/
theorem pingServer_result_shape_invariant (url name ts : String) (net : NetOutcome) :
    (ping_server url name ts net).1.status_code.isSome =
      !(ping_server url name ts net).1.error.isSome ∧
    ((ping_server url name ts net).1.success = true ↔
      (ping_server url name ts net).1.status_code = some 200) := by
  cases net with
  | response status elapsed bp =>
    cases hb : status == 200 with
    | false =>
      have h : ¬status = 200 := by simpa using hb
      simp [ping_server, ping_server_body, hb, h]
    | true =>
      have h : status = 200 := by simpa using hb
      subst h
      cases bp with
      | textBody raw => simp [ping_server, ping_server_body]
      | jsonBody j =>
        cases j with
        | obj kvs =>
          cases hU : lookupKey kvs "uptime" with
          | none => simp [ping_server, ping_server_body, hU]
          | some v =>
            cases hF : pyFormat1 v with
            | some s => simp [ping_server, ping_server_body, hU, hF]
            | none => simp [ping_server, ping_server_body, hU, hF]
        | null => simp [ping_server, ping_server_body]
        | bool b => simp [ping_server, ping_server_body]
        | num x => simp [ping_server, ping_server_body]
        | str s => simp [ping_server, ping_server_body]
        | arr xs => simp [ping_server, ping_server_body]
  | timeout => simp [ping_server, ping_server_body]
  | connectionError => simp [ping_server, ping_server_body]
  | otherError msg => simp [ping_server, ping_server_body]

/-- Counterexample to C1: a probe whose GET *does* return HTTP 200
within the timeout window (the outcome is a 200 response, as the first
conjunct records) can still produce `success = false`.  With the JSON
body `{"uptime": "up"}`, the success-path print
`f"   Uptime: {data['uptime']:.1f}s"` (main.py line 52) raises on the
string value, the generic `except Exception` handler (line 80) catches
it, and an error-shaped dict with `success = False` is returned. -/
theorem pingServer_success_iff_200_counterexample :
    isOk200 (NetOutcome.response 200 ⟨0, 0⟩
      (BodyParse.jsonBody (Json.obj [("uptime", Json.str "up")]))) = true ∧
    (ping_server "http://u" "S" "T" (NetOutcome.response 200 ⟨0, 0⟩
      (BodyParse.jsonBody (Json.obj [("uptime", Json.str "up")])))).1.success = false ∧
    (ping_server "http://u" "S" "T" (NetOutcome.response 200 ⟨0, 0⟩
      (BodyParse.jsonBody (Json.obj [("uptime", Json.str "up")])))).1.error =
      some "Unknown format code \x27f\x27 for object of type \x27str\x27" :=
  ⟨rfl, rfl, rfl⟩

/-- C1 (amended): every probe produces exactly one `ProbeResult` (the
probe is a total function into `ProbeResult`), and `success` is true iff
the HTTP request returned status 200 within the timeout window *and*
the success-path result printing did not raise — i.e. any `"uptime"`
key present in a 200 JSON-object body maps to a numeric value.  A 200
response whose object body maps `"uptime"` to a non-numeric value is
turned into a Failure result with `success = false` by the generic
exception handler. -/
theorem pingServer_success_eq_ok200_and_format_ok (url name ts : String) (net : NetOutcome) :
    (ping_server url name ts net).1.success =
      (isOk200 net && !uptimeFormatFails net) := by
  cases net with
  | response status elapsed bp =>
    cases hb : status == 200 with
    | false =>
      cases bp with
      | textBody raw => simp [ping_server, ping_server_body, isOk200, uptimeFormatFails, hb]
      | jsonBody j =>
        cases j <;> simp [ping_server, ping_server_body, isOk200, uptimeFormatFails, hb]
    | true =>
      have h : status = 200 := by simpa using hb
      subst h
      cases bp with
      | textBody raw => simp [ping_server, ping_server_body, isOk200, uptimeFormatFails]
      | jsonBody j =>
        cases j with
        | obj kvs =>
          cases hU : lookupKey kvs "uptime" with
          | none => simp [ping_server, ping_server_body, isOk200, uptimeFormatFails, hU]
          | some v =>
            cases hF : pyFormat1 v with
            | some s => simp [ping_server, ping_server_body, isOk200, uptimeFormatFails, hU, hF]
            | none => simp [ping_server, ping_server_body, isOk200, uptimeFormatFails, hU, hF]
        | null => simp [ping_server, ping_server_body, isOk200, uptimeFormatFails]
        | bool b => simp [ping_server, ping_server_body, isOk200, uptimeFormatFails]
        | num x => simp [ping_server, ping_server_body, isOk200, uptimeFormatFails]
        | str s => simp [ping_server, ping_server_body, isOk200, uptimeFormatFails]
        | arr xs => simp [ping_server, ping_server_body, isOk200, uptimeFormatFails]
  | timeout => simp [ping_server, ping_server_body, isOk200, uptimeFormatFails]
  | connectionError => simp [ping_server, ping_server_body, isOk200, uptimeFormatFails]
  | otherError msg => simp [ping_server, ping_server_body, isOk200, uptimeFormatFails]

/-- The per-target loop with an arbitrary starting accumulator: it
appends one `ping_server` result per target, in list order, and emits
each probe's printed lines followed by the blank separator. -/
theorem ping_all_loop_acc (targets : List Target) (net : Target → NetOutcome)
    (ts : String) (acc : List ProbeResult × List String) :
    targets.foldl
      (fun acc server =>
        let r := ping_server server.url server.name ts (net server)
        (acc.1 ++ [r.1], acc.2 ++ r.2 ++ [""])) acc =
      (acc.1 ++ runResults targets net ts,
       acc.2 ++ (targets.map (fun t => (ping_server t.url t.name ts (net t)).2 ++ [""])).flatten) := by
  induction targets generalizing acc with
  | nil => simp [runResults]
  | cons t rest ih =>
    rw [List.foldl_cons, ih]
    simp [runResults, List.append_assoc]

/-- The loop of `ping_all_servers` computes exactly the in-order list of
per-target results and the concatenation of their printed lines. -/
theorem ping_all_loop_eq (targets : List Target) (net : Target → NetOutcome) (ts : String) :
    ping_all_loop targets net ts =
      (runResults targets net ts,
       (targets.map (fun t => (ping_server t.url t.name ts (net t)).2 ++ [""])).flatten) := by
  simpa [ping_all_loop] using ping_all_loop_acc targets net ts ([], [])

/-- C7: `ping_all_servers` probes every target of the given list
sequentially in list order, appending each probe's result exactly once
(the accumulated result list is precisely the in-order map of
`ping_server` over the targets, so no failing probe prevents the
remaining targets from being probed), and the printed summary line has
the count of results with `success = true` as numerator and the total
target count as denominator. -/
theorem pingAllServers_sequential_all_probed (targets : List Target)
    (net : Target → NetOutcome) (ts : String) :
    (ping_all_loop targets net ts).1 = runResults targets net ts ∧
    ("Servers responding: " ++
        toString ((runResults targets net ts).countP (fun r => r.success)) ++
        "/" ++ toString targets.length) ∈ (ping_all_servers targets net ts).2 := by
  have h := ping_all_loop_eq targets net ts
  have hlen : (runResults targets net ts).length = targets.length := by
    simp [runResults]
  refine ⟨by rw [h], ?_⟩
  simp only [ping_all_servers, h, hlen]
  split <;> simp [List.mem_append]

/-- Last line of the report shape `ping_all_servers` prints: three
header lines, the per-target lines, and a five-line summary block whose
last line is the closing message. -/
theorem getLast?_headered (F : List String) (a d e f g m : String) :
    (a :: (F ++ [d, e, f, g, m])).getLast? = some m := by
  have heq : a :: (F ++ [d, e, f, g, m]) =
      (a :: F ++ [d, e, f, g]) ++ [m] := by simp
  rw [heq, List.getLast?_concat]

/-- C3: `ping_all_servers` returns exit code 0 when every target's
result has `success = true` (in particular for zero targets) and 1
otherwise; its printed output contains the summary count line
`successes/total` and ends with exactly one of the two fixed closing
messages, the healthy one exactly when the exit code is 0. -/
theorem pingAllServers_exit_code_and_summary (targets : List Target)
    (net : Target → NetOutcome) (ts : String) :
    ((ping_all_servers targets net ts).1 = 0 ∨ (ping_all_servers targets net ts).1 = 1) ∧
    ((ping_all_servers targets net ts).1 = 0 ↔
      ∀ r ∈ runResults targets net ts, r.success = true) ∧
    ("Servers responding: " ++
        toString ((runResults targets net ts).countP (fun r => r.success)) ++
        "/" ++ toString targets.length) ∈ (ping_all_servers targets net ts).2 ∧
    (ping_all_servers targets net ts).2.getLast? =
      some (if (ping_all_servers targets net ts).1 = 0 then "🎉 All servers are healthy!"
            else "⚠️ Some servers are not responding") := by
  have h := ping_all_loop_eq targets net ts
  have hlen : (runResults targets net ts).length = targets.length := by
    simp [runResults]
  refine ⟨?_, ?_, ?_, ?_⟩
  · simp only [ping_all_servers, h, hlen]
    split <;> simp
  · by_cases hc : (runResults targets net ts).countP (fun r => r.success) =
        (runResults targets net ts).length
    · have hcode : (ping_all_servers targets net ts).1 = 0 := by
        simp only [ping_all_servers, h, hlen]
        rw [if_pos (hlen ▸ hc)]
      have hall : ∀ r ∈ runResults targets net ts, r.success = true := by
        simpa using List.countP_eq_length.mp hc
      exact ⟨fun _ => hall, fun _ => hcode⟩
    · have hcode : (ping_all_servers targets net ts).1 = 1 := by
        simp only [ping_all_servers, h, hlen]
        rw [if_neg (by rw [← hlen]; exact hc)]
      constructor
      · intro h0
        rw [hcode] at h0
        exact absurd h0 (by decide)
      · intro hall
        exact absurd (List.countP_eq_length.mpr (by simpa using hall)) hc
  · simp only [ping_all_servers, h, hlen]
    split <;> simp [List.mem_append]
  · simp only [ping_all_servers, h, hlen]
    split <;> simp [getLast?_headered]

/-- C10: over an empty target list the success count and the total count
are both zero, so `ping_all_servers` prints the summary count `0/0`
followed by the all-healthy closing message, and returns exit code 0. -/
theorem pingAllServers_empty_targets (net : Target → NetOutcome) (ts : String) :
    ping_all_servers [] net ts =
      (0, [banner, "SERVER PING MONITORING", banner, banner, "SUMMARY", banner,
           "Servers responding: 0/0", "🎉 All servers are healthy!"]) := by
  simp only [ping_all_servers, ping_all_loop, List.foldl_nil, List.countP_nil,
    List.length_nil]
  rfl
